import Mathlib

/-!
Shallow embedding of the twitch-ext-pong WebSocket relay server
(the validated variant of the Go source: `PaddlePosition.Validate`,
`NewServer`, `broadcast`, `handleWS`), together with theorems settling
the specification claims about it.
-/

namespace TwitchPong

/-- Go struct `GameState`: left and right paddle Y coordinates.
JSON numbers are modelled as rationals. -/
structure GameState where
  leftPaddle : ℚ
  rightPaddle : ℚ
  deriving DecidableEq, Repr

/-- Go struct `PaddlePosition`: the payload of a paddle update, a side tag
("left" or "right") and a Y coordinate. -/
structure PaddlePosition where
  side : String
  y : ℚ
  deriving DecidableEq, Repr

/-- Go method `PaddlePosition.Validate`: returns an error (here `false`) iff
`p.Y < 0 || p.Y > 600`; `true` means the nil error, i.e. accept. -/
def PaddlePosition.Validate (p : PaddlePosition) : Bool :=
  if p.y < 0 ∨ p.y > 600 then false else true

/-- Go struct `Server`: the connection registry. Connection handles are
modelled as naturals, the Go `map[*websocket.Conn]bool` as a `Finset`, and
`connectionCount` (a Go `int` that the code can drive negative) as `ℤ`. -/
structure Server where
  connections : Finset ℕ
  connectionCount : ℤ
  gameState : GameState
  deriving DecidableEq

/-- Go `NewServer`: empty connection map, zero count, both paddles at 300. -/
def NewServer : Server :=
  { connections := ∅
    connectionCount := 0
    gameState := { leftPaddle := 300, rightPaddle := 300 } }

/-- Registration step of `handleWS`: `s.connections[conn] = true` followed by
`s.connectionCount++`, performed under the write lock. -/
def register (s : Server) (c : ℕ) : Server :=
  { s with
    connections := insert c s.connections
    connectionCount := s.connectionCount + 1 }

/-- Unregistration step (the `handleWS` defer, and each reaped connection in
`broadcast`): `delete(s.connections, conn)` — a no-op on an absent key — and
an unconditional `s.connectionCount--`. -/
def unregister (s : Server) (c : ℕ) : Server :=
  { s with
    connections := s.connections.erase c
    connectionCount := s.connectionCount - 1 }

/-- The validate-then-mutate path of `handleWS` for a decoded paddle position:
on a nil `Validate` error the server sets `s.gameState.LeftPaddle = paddlePos.Y`
(source comment: all players control the left paddle; the `side` field is not
consulted) and the update counts as accepted; otherwise the state is untouched
and the update is rejected. -/
def applyUpdate (g : GameState) (p : PaddlePosition) : GameState × Bool :=
  if p.Validate then ({ g with leftPaddle := p.y }, true) else (g, false)

/-- Contents of the Go `json.RawMessage` payload as seen by the handler: it
either unmarshals into a `PaddlePosition` or `json.Unmarshal` fails on it. -/
inductive RawPayload where
  | paddle (p : PaddlePosition)
  | undecodable
  deriving DecidableEq

/-- Go struct `Message`: the wire envelope, a string type tag and a raw
payload. -/
structure Message where
  type : String
  payload : RawPayload
  deriving DecidableEq

/-- One inbound frame as seen by the read loop: either `conn.ReadJSON` fails on
it (malformed envelope) or it decodes to a `Message`. -/
inductive Frame where
  | malformed
  | wellFormed (m : Message)
  deriving DecidableEq

/-- Observable outcome of one iteration of the `handleWS` read loop: the server
state afterwards, the messages passed to `broadcast`, and whether the loop
continues (`true`) or breaks so that the defer closes the connection
(`false`). -/
structure StepResult where
  state : Server
  broadcasts : List Message
  connOpen : Bool
  deriving DecidableEq

/-- One iteration of the `handleWS` read loop: a `ReadJSON` failure breaks the
loop; a message whose type is not `paddle_update` is ignored; a
`paddle_update` whose payload fails to unmarshal is logged and skipped
(`continue`); an out-of-bounds position is logged and skipped (`continue`);
a valid position mutates the left paddle and is re-broadcast. -/
def handleFrame (s : Server) (f : Frame) : StepResult :=
  match f with
  | .malformed => ⟨s, [], false⟩
  | .wellFormed m =>
    if m.type = "paddle_update" then
      match m.payload with
      | .undecodable => ⟨s, [], true⟩
      | .paddle p =>
        let r := applyUpdate s.gameState p
        if r.2 then ⟨{ s with gameState := r.1 }, [m], true⟩ else ⟨s, [], true⟩
    else ⟨s, [], true⟩

/-- A connection handle as `broadcast` sees it: an identifier together with the
liveness of the underlying channel — `conn.WriteJSON` succeeds iff `alive`. -/
structure Conn where
  id : ℕ
  alive : Bool
  deriving DecidableEq, Repr

/-- The delivery pass of `broadcast`: iterate over the connection map,
attempting a write to every connection; successful writes are the deliveries,
failed ones are appended to `deadConns`. Returns (deliveries, deadConns). -/
def deliveryPass (conns : List Conn) (m : Message) :
    List (ℕ × Message) × List Conn :=
  ((conns.filter fun c => c.alive).map fun c => (c.id, m),
   conns.filter fun c => !c.alive)

/-- One operation on the registry RWMutex, from the goroutine's point of
view. -/
inductive LockOp where
  | rLock
  | rUnlock
  | wLock
  | wUnlock
  deriving DecidableEq, Repr

/-- The registry-lock operations performed, in program order, by one
`broadcast` call: `s.RLock()` on entry; if any write failed
(`len(deadConns) > 0`) then `s.Lock()` and `s.Unlock()` around the reap; the
`defer s.RUnlock()` runs last, at function return. -/
def broadcastLockOps (hasDead : Bool) : List LockOp :=
  [.rLock] ++ (if hasDead then [.wLock, .wUnlock] else []) ++ [.rUnlock]

/-- Helper for `wLockWhileReadHeld`: walks the trace keeping the number of
read locks the goroutine currently holds. -/
def wLockWhileReadHeldAux : ℤ → List LockOp → Bool
  | _, [] => false
  | held, .rLock :: l => wLockWhileReadHeldAux (held + 1) l
  | held, .rUnlock :: l => wLockWhileReadHeldAux (held - 1) l
  | held, .wLock :: l => decide (0 < held) || wLockWhileReadHeldAux held l
  | held, .wUnlock :: l => wLockWhileReadHeldAux held l

/-- True when some `wLock` in the trace is requested while the goroutine still
holds a read lock on the same RWMutex. Under Go `sync.RWMutex` semantics such
an acquisition blocks until all readers release, which includes the caller
itself — the goroutine deadlocks. -/
def wLockWhileReadHeld (l : List LockOp) : Bool :=
  wLockWhileReadHeldAux 0 l

/-- Lock-aware execution of one `broadcast` call by a single goroutine: the
delivery pass runs under the read lock; if its lock trace requests the write
lock while the read lock is still held (the deferred `RUnlock` has not run),
the call blocks forever and is denoted `none`; otherwise it returns the
deliveries and the connection map after deleting every collected dead
connection. -/
def broadcastExec (conns : List Conn) (m : Message) :
    Option (List (ℕ × Message) × List Conn) :=
  let d := deliveryPass conns m
  if wLockWhileReadHeld (broadcastLockOps (!d.2.isEmpty)) then none
  else some (d.1, conns.filter fun c => c.alive)

/-- One registry operation for the reachable-state model: a `handleWS`
registration, an unregistration (the `handleWS` defer, or one reaped dead
connection in `broadcast` — the same delete-and-decrement), or the processing
of one inbound frame by the read loop. -/
inductive Op where
  | register (c : ℕ)
  | unregister (c : ℕ)
  | frame (f : Frame)

/-- Effect of one operation on the server state. -/
def stepOp (s : Server) (o : Op) : Server :=
  match o with
  | .register c => register s c
  | .unregister c => unregister s c
  | .frame f => (handleFrame s f).state

/-- The server state after a sequence of operations starting from
`NewServer`. -/
def runOps (ops : List Op) : Server :=
  ops.foldl stepOp NewServer

/-- Both paddle coordinates lie within the canvas bounds [0, 600]. -/
def inBounds (g : GameState) : Prop :=
  0 ≤ g.leftPaddle ∧ g.leftPaddle ≤ 600 ∧ 0 ≤ g.rightPaddle ∧ g.rightPaddle ≤ 600

instance (g : GameState) : Decidable (inBounds g) := by
  unfold inBounds; infer_instance

/-- The single store an accepted update performs on the game state:
`s.gameState.LeftPaddle = paddlePos.Y`. -/
def writeLeft (g : GameState) (y : ℚ) : GameState :=
  { g with leftPaddle := y }

/-- Where the concurrent update's store lands relative to the snapshot's two
field reads. -/
inductive WritePoint where
  | beforeBoth
  | betweenReads
  | afterBoth
  deriving DecidableEq, Repr

/-- The unguarded read of `s.gameState` performed by `handleWS` when building
the initial-state message: it reads `leftPaddle`, then `rightPaddle`, while a
concurrent accepted update stores `y` into `leftPaddle` at the given point. -/
def snapshotRead (g : GameState) (y : ℚ) : WritePoint → GameState
  | .beforeBoth =>
    { leftPaddle := (writeLeft g y).leftPaddle
      rightPaddle := (writeLeft g y).rightPaddle }
  | .betweenReads =>
    { leftPaddle := g.leftPaddle
      rightPaddle := (writeLeft g y).rightPaddle }
  | .afterBoth =>
    { leftPaddle := g.leftPaddle
      rightPaddle := g.rightPaddle }

/-- The validator accepts exactly the coordinates inside the canvas bounds. -/
theorem Validate_eq_true_iff (p : PaddlePosition) :
    p.Validate = true ↔ 0 ≤ p.y ∧ p.y ≤ 600 := by
  by_cases h : p.y < 0 ∨ p.y > 600
  · have hv : p.Validate = false := by simp [PaddlePosition.Validate, h]
    rw [hv]
    simp only [Bool.false_eq_true, false_iff, not_and]
    intro h0 h1
    rcases h with h | h <;> linarith
  · have hv : p.Validate = true := by simp [PaddlePosition.Validate, h]
    rw [hv]
    push_neg at h
    simp only [true_iff]
    exact h

/-- The game state after one frame is either untouched or has its left paddle
overwritten with a coordinate the validator accepted. -/
theorem handleFrame_state_gameState (s : Server) (f : Frame) :
    (handleFrame s f).state.gameState = s.gameState ∨
    ∃ p : PaddlePosition, p.Validate = true ∧
      (handleFrame s f).state.gameState = { s.gameState with leftPaddle := p.y } := by
  cases f with
  | malformed => left; rfl
  | wellFormed m =>
    by_cases ht : m.type = "paddle_update"
    · cases hm : m.payload with
      | undecodable => left; simp [handleFrame, ht, hm]
      | paddle p =>
        by_cases hv : p.Validate = true
        · right; exact ⟨p, hv, by simp [handleFrame, ht, hm, applyUpdate, hv]⟩
        · left; simp [handleFrame, ht, hm, applyUpdate, hv]
    · left; simp [handleFrame, ht]

/-- Each registry operation preserves the paddle-bounds invariant. -/
theorem inBounds_stepOp (s : Server) (o : Op) (h : inBounds s.gameState) :
    inBounds (stepOp s o).gameState := by
  cases o with
  | register c => exact h
  | unregister c => exact h
  | frame f =>
    show inBounds (handleFrame s f).state.gameState
    rcases handleFrame_state_gameState s f with heq | ⟨p, hv, heq⟩
    · rw [heq]; exact h
    · rw [heq]
      obtain ⟨h0, h1⟩ := (Validate_eq_true_iff p).mp hv
      exact ⟨h0, h1, h.2.2.1, h.2.2.2⟩

/-- C1 (counterexample). The claim says a side = right update mutates
rightPaddleY to the update's y and leaves leftPaddleY unchanged. At the
concrete input side = right, y = 100 from the initial state ⟨300, 300⟩ the
update is accepted, yet rightPaddle is not 100 and leftPaddle did not stay
300: the handler writes the left paddle regardless of side. -/
theorem claim1_counterexample :
    (applyUpdate ⟨300, 300⟩ ⟨"right", 100⟩).2 = true ∧
    (applyUpdate ⟨300, 300⟩ ⟨"right", 100⟩).1.rightPaddle ≠ 100 ∧
    (applyUpdate ⟨300, 300⟩ ⟨"right", 100⟩).1.leftPaddle ≠ 300 := by
  decide

/-- C1 (amended). Every accepted PaddleUpdate mutates leftPaddleY to the
update's y value and reports accept, regardless of the update's side field;
rightPaddleY is never changed. -/
theorem claim1_accepted_update_writes_left (g : GameState) (p : PaddlePosition)
    (h : p.Validate = true) :
    applyUpdate g p = ({ g with leftPaddle := p.y }, true) := by
  simp [applyUpdate, h]

/-- Witness for C1 (amended) at side = right, y = 100 from ⟨300, 300⟩. -/
theorem claim1_accepted_update_writes_left_witness :
    PaddlePosition.Validate ⟨"right", 100⟩ = true ∧
    applyUpdate ⟨300, 300⟩ ⟨"right", 100⟩ = (⟨100, 300⟩, true) :=
  ⟨by decide, claim1_accepted_update_writes_left ⟨300, 300⟩ ⟨"right", 100⟩ (by decide)⟩

/-- C2. A paddle update whose Y is below 0 or above 600 is rejected by the
read loop: the server state (game state, connection set, connection count) is
unchanged, nothing is broadcast, and the loop continues so the sending
connection stays registered and open. -/
theorem claim2_out_of_bounds_rejected (s : Server) (p : PaddlePosition)
    (h : p.y < 0 ∨ p.y > 600) :
    handleFrame s (.wellFormed ⟨"paddle_update", .paddle p⟩) = ⟨s, [], true⟩ := by
  have hv : p.Validate = false := by simp [PaddlePosition.Validate, h]
  simp [handleFrame, applyUpdate, hv]

/-- Witness for C2 at the spec scenario side = left, y = -5. -/
theorem claim2_out_of_bounds_rejected_witness :
    ((⟨"left", -5⟩ : PaddlePosition).y < 0 ∨ (⟨"left", -5⟩ : PaddlePosition).y > 600) ∧
    handleFrame NewServer (.wellFormed ⟨"paddle_update", .paddle ⟨"left", -5⟩⟩)
      = ⟨NewServer, [], true⟩ :=
  ⟨by decide, claim2_out_of_bounds_rejected NewServer ⟨"left", -5⟩ (by decide)⟩

/-- C3. The claim says the write lock for reaping is taken only after the read
lock of the delivery pass has been released. In the source the RUnlock is
deferred to function return, so on any broadcast that collected a dead
connection the goroutine requests the write lock while it still holds the
read lock (self-deadlock under Go RWMutex semantics); with no dead connection
no write lock is requested at all. -/
theorem claim3_wlock_requested_under_rlock :
    wLockWhileReadHeld (broadcastLockOps true) = true ∧
    wLockWhileReadHeld (broadcastLockOps false) = false := by
  decide

/-- C4 (counterexample). Register handle 1 on a fresh server, then unregister
it twice: the connection set is the same as after one unregister, but the
count is -1 instead of 0 — the decrement is unconditional, so double
unregistration is not idempotent on the count. -/
theorem claim4_counterexample :
    (unregister (unregister (register NewServer 1) 1) 1).connections
      = (unregister (register NewServer 1) 1).connections ∧
    (unregister (register NewServer 1) 1).connectionCount = 0 ∧
    (unregister (unregister (register NewServer 1) 1) 1).connectionCount = -1 := by
  decide

/-- C4 (amended). Unregistering the same handle twice leaves the connection
set exactly as after unregistering it once (the map delete is a no-op on an
absent key), but decrements the connection count on every call, so the count
after two calls is one less than after one call. -/
theorem claim4_unregister_set_idempotent_count_not (s : Server) (c : ℕ) :
    (unregister (unregister s c) c).connections = (unregister s c).connections ∧
    (unregister (unregister s c) c).connectionCount
      = (unregister s c).connectionCount - 1 := by
  constructor
  · simp [unregister, Finset.erase_idem]
  · simp [unregister]

/-- C5. The claim says a broadcast over N connections with one dead channel
delivers to the other N-1, removes the dead one and returns with the registry
at N-1. At the concrete input of two connections, one dead: the delivery pass
does reach the one live connection and collects the dead one, but the reap
step then requests the write lock while the deferred RUnlock still holds the
read lock, so the lock-aware execution of the call never completes (none) and
the removal never happens. -/
theorem claim5_reap_step_deadlocks :
    deliveryPass [⟨1, true⟩, ⟨2, false⟩] ⟨"paddle_update", .paddle ⟨"left", 250⟩⟩
      = ([(1, ⟨"paddle_update", .paddle ⟨"left", 250⟩⟩)], [⟨2, false⟩]) ∧
    broadcastExec [⟨1, true⟩, ⟨2, false⟩] ⟨"paddle_update", .paddle ⟨"left", 250⟩⟩
      = none := by
  decide

/-- C6. With every registered connection alive, a valid paddle update causes
the read loop to hand exactly the received message to broadcast, and the
broadcast call completes, delivering that message exactly once to every
registered connection (the sender included) and leaving the connection set
unchanged. -/
theorem claim6_broadcast_completeness (s : Server) (conns : List Conn)
    (p : PaddlePosition) (ha : conns.all (fun c => c.alive) = true)
    (hv : p.Validate = true) :
    (handleFrame s (.wellFormed ⟨"paddle_update", .paddle p⟩)).broadcasts
      = [⟨"paddle_update", .paddle p⟩] ∧
    broadcastExec conns ⟨"paddle_update", .paddle p⟩
      = some (conns.map fun c => (c.id, ⟨"paddle_update", .paddle p⟩), conns) := by
  have halive : ∀ c ∈ conns, c.alive = true := List.all_eq_true.mp ha
  constructor
  · simp [handleFrame, applyUpdate, hv]
  · have hdead : (conns.filter fun c => !c.alive) = [] := by
      rw [List.filter_eq_nil_iff]
      intro c hc
      simp [halive c hc]
    have hkeep : (conns.filter fun c => c.alive) = conns :=
      List.filter_eq_self.mpr halive
    simp [broadcastExec, deliveryPass, hdead, hkeep, wLockWhileReadHeld,
      broadcastLockOps, wLockWhileReadHeldAux]

/-- Witness for C6: three live connections and the spec scenario update
side = left, y = 250. -/
theorem claim6_broadcast_completeness_witness :
    ([⟨1, true⟩, ⟨2, true⟩, ⟨3, true⟩] : List Conn).all (fun c => c.alive) = true ∧
    PaddlePosition.Validate ⟨"left", 250⟩ = true ∧
    ((handleFrame NewServer
        (.wellFormed ⟨"paddle_update", .paddle ⟨"left", 250⟩⟩)).broadcasts
      = [⟨"paddle_update", .paddle ⟨"left", 250⟩⟩] ∧
    broadcastExec [⟨1, true⟩, ⟨2, true⟩, ⟨3, true⟩]
        ⟨"paddle_update", .paddle ⟨"left", 250⟩⟩
      = some (([⟨1, true⟩, ⟨2, true⟩, ⟨3, true⟩] : List Conn).map
          fun c => (c.id, ⟨"paddle_update", .paddle ⟨"left", 250⟩⟩),
          [⟨1, true⟩, ⟨2, true⟩, ⟨3, true⟩])) :=
  ⟨by decide, by decide,
    claim6_broadcast_completeness NewServer [⟨1, true⟩, ⟨2, true⟩, ⟨3, true⟩]
      ⟨"left", 250⟩ (by decide) (by decide)⟩

/-- C7 (counterexample). The claim says every frame that fails to decode
leaves the connection open. A malformed envelope makes ReadJSON fail, the
loop breaks, and the defer closes and unregisters the connection: connOpen is
false. -/
theorem claim7_counterexample :
    (handleFrame NewServer .malformed).connOpen = false := by
  decide

/-- C7 (amended). A paddle_update frame whose payload fails to unmarshal is
dropped with the state untouched, no broadcast, and the connection left open;
a frame whose envelope fails to decode terminates the read loop, after which
the connection is closed and unregistered. -/
theorem claim7_payload_error_kept_envelope_error_closes (s : Server) :
    handleFrame s (.wellFormed ⟨"paddle_update", .undecodable⟩) = ⟨s, [], true⟩ ∧
    handleFrame s .malformed = ⟨s, [], false⟩ := by
  constructor
  · simp [handleFrame]
  · rfl

/-- C8. In every state reachable from the fresh server by any sequence of
registrations, unregistrations and inbound frames, both paddle coordinates
lie within [0, 600]. -/
theorem claim8_bounds_invariant (ops : List Op) :
    inBounds (runOps ops).gameState := by
  have key : ∀ (l : List Op) (s : Server), inBounds s.gameState →
      inBounds (l.foldl stepOp s).gameState := by
    intro l
    induction l with
    | nil => intro s h; exact h
    | cons o l ih => intro s h; exact ih _ (inBounds_stepOp s o h)
  exact key ops NewServer (by decide)

/-- C9. The unguarded two-field snapshot read, interleaved at any point with
one concurrent accepted applyUpdate, observes either the fully pre-update or
the fully post-update game state — never a torn mixture — because an accepted
update stores only into leftPaddle. -/
theorem claim9_snapshot_not_torn (g : GameState) (p : PaddlePosition)
    (h : (applyUpdate g p).2 = true) (k : WritePoint) :
    snapshotRead g p.y k = g ∨ snapshotRead g p.y k = (applyUpdate g p).1 := by
  have hv : p.Validate = true := by
    by_contra hv
    simp [applyUpdate, hv] at h
  have h1 : (applyUpdate g p).1 = writeLeft g p.y := by
    simp [applyUpdate, hv, writeLeft]
  rw [h1]
  cases k with
  | beforeBoth => right; rfl
  | betweenReads => left; rfl
  | afterBoth => left; rfl

/-- Witness for C9: initial state, accepted update y = 250, write landing
between the two reads. -/
theorem claim9_snapshot_not_torn_witness :
    (applyUpdate ⟨300, 300⟩ ⟨"left", 250⟩).2 = true ∧
    (snapshotRead ⟨300, 300⟩ (⟨"left", 250⟩ : PaddlePosition).y .betweenReads
        = ⟨300, 300⟩ ∨
      snapshotRead ⟨300, 300⟩ (⟨"left", 250⟩ : PaddlePosition).y .betweenReads
        = (applyUpdate ⟨300, 300⟩ ⟨"left", 250⟩).1) :=
  ⟨by decide, claim9_snapshot_not_torn ⟨300, 300⟩ ⟨"left", 250⟩ (by decide) .betweenReads⟩

/-- C10. A decoded message whose type is not paddle_update (initial_state,
team_assign, or anything else) is ignored by the read loop: server state
unchanged, no broadcast, connection still open. -/
theorem claim10_other_types_ignored (s : Server) (m : Message)
    (h : m.type ≠ "paddle_update") :
    handleFrame s (.wellFormed m) = ⟨s, [], true⟩ := by
  simp [handleFrame, h]

/-- Witness for C10: a client-sent team_assign message on the fresh server. -/
theorem claim10_other_types_ignored_witness :
    (Message.type ⟨"team_assign", .undecodable⟩ ≠ "paddle_update") ∧
    handleFrame NewServer (.wellFormed ⟨"team_assign", .undecodable⟩)
      = ⟨NewServer, [], true⟩ :=
  ⟨by decide, claim10_other_types_ignored NewServer ⟨"team_assign", .undecodable⟩ (by decide)⟩

end TwitchPong
